import Mathlib

/-!
Shallow embedding of the magic-manager repository's core:
the rate-limited Scryfall fetch client (`services/api/src/scryfall.ts`),
the card-search gateway (`ScryfallService`), the cache-and-enrich pipeline
and collection routes (`apps/web/src/app/api/...`), and the collection
query builder (`packages/database/src/client.ts` route handlers).

TypeScript values are modelled as follows: strings as `String`, JS numbers
holding integral values as `Nat` (timestamps as `Int` where differences
matter), optional fields as `Option`, absent-or-empty JS arrays as `List`
(in every guard the source treats `undefined` and `[]` identically),
opaque JSON blobs (`image_uris`, `prices`, `legalities`) as `String`
payloads, and fallible external calls as `Option`/`Except`-valued inputs.
-/

/-! ### String helpers (model of SQL ILIKE '%pat%' and of JS `||`) -/

/-- Whether `pat` is an initial segment of `s` (on character lists). -/
def listStartsWith (s pat : List Char) : Bool :=
  match pat, s with
  | [], _ => true
  | _ :: _, [] => false
  | a :: as, b :: bs => a == b && listStartsWith bs as

/-- Whether `pat` occurs contiguously inside `s` (on character lists). -/
def subOccurs (pat : List Char) : List Char → Bool
  | [] => pat.isEmpty
  | c :: rest => listStartsWith (c :: rest) pat || subOccurs pat rest

/-- Model of the SQL predicate `field ILIKE '%pat%'` used by the
collection query builder: case-insensitive substring containment. -/
def ilikeContains (field pat : String) : Bool :=
  subOccurs pat.toLower.data field.toLower.data

/-- Model of the JS expression `a || b` on an optional string `a`:
`undefined` and the empty string are both falsy and fall through to `b`. -/
def jsOrStr (a b : Option String) : Option String :=
  match a with
  | some s => if s == "" then b else some s
  | none => b

/-- Model of the JS expression `a || d` where `a` is an optional string and
`d` a string default (used for `data.details || 'Unknown Scryfall error'`). -/
def jsOrDefault (a : Option String) (d : String) : String :=
  match a with
  | some s => if s == "" then d else s
  | none => d

/-! ### Rate-limited fetch client (`services/api/src/scryfall.ts`) -/

/-- The configured minimum interval between outbound requests (ms). -/
def REQUEST_DELAY : Int := 100

/-- An HTTP response as the client observes it: status and status text. -/
structure HttpResponse where
  status : Nat
  statusText : String
deriving DecidableEq, Repr

/-- Model of `response.ok`: status in the 2xx range. -/
def respOk (r : HttpResponse) : Bool :=
  200 ≤ r.status && r.status ≤ 299

/-- The error message thrown on a non-ok, non-429 response
(`new Error` with the status and status text). -/
def scryfallErrMsg (r : HttpResponse) : String :=
  "Scryfall API error: " ++ toString r.status ++ " " ++ r.statusText

/-- Retry behaviour of `rateLimitedFetch` over the sequence of responses
the network returns for its successive attempts.  Translated from the
source: an ok response is returned; a 429 causes a recursive call (which
consumes the next stubbed response); any other status throws.  `none`
means the stubbed response supply ran out while the client was still
retrying. -/
def rateLimitedFetchTrace : List HttpResponse → Option (Except String HttpResponse)
  | [] => none
  | r :: rest =>
    if respOk r then some (Except.ok r)
    else if r.status == 429 then rateLimitedFetchTrace rest
    else some (Except.error (scryfallErrMsg r))

/-- Timing logic of one `rateLimitedFetch` call: given the stored
`lastRequestTime` and the clock value `now` at entry, the time at which
the request is dispatched.  Translated from the source: if
`now - lastRequestTime < REQUEST_DELAY` the call sleeps
`REQUEST_DELAY - timeSinceLastRequest` ms first (idealized exact timer);
`lastRequestTime` is then set to the dispatch time. -/
def dispatchTime (last now : Int) : Int :=
  let timeSinceLastRequest := now - last
  if timeSinceLastRequest < REQUEST_DELAY then
    now + (REQUEST_DELAY - timeSinceLastRequest)
  else
    now

/-- Dispatch times of a sequence of strictly sequential calls (each call
enters the client only after the previous one has dispatched and written
`lastRequestTime`), starting from stored time `last`, with `ts` the clock
values at which the successive calls enter. -/
def seqDispatches (last : Int) : List Int → List Int
  | [] => []
  | t :: ts =>
    let d := dispatchTime last t
    d :: seqDispatches d ts

/-- Dispatch times of two overlapped callers under JavaScript run-to-
completion semantics.  Caller 1 enters at clock `a1` and runs the
synchronous prefix of `rateLimitedFetch` (read `Date.now()`, compute the
wait, start `setTimeout`), then yields at its `await`.  Caller 2 enters at
clock `a2` while caller 1 is still sleeping — that is, before caller 1 has
resumed and written `lastRequestTime` — so caller 2's synchronous prefix
reads the same stored value `last`.  Each caller then resumes at its own
computed wake time, writes `lastRequestTime`, and dispatches.  The
overlap is consistent exactly when `a1 ≤ a2` and `a2` precedes caller 1's
dispatch time. -/
def overlappedDispatches (last a1 a2 : Int) : Int × Int :=
  (dispatchTime last a1, dispatchTime last a2)

/-! ### Card search gateway (`ScryfallService`) -/

/-- A card as returned by the external Scryfall API
(`ScryfallCard` in `packages/shared/src/types.ts`; opaque JSON fields
modelled as `String` payloads). -/
structure ScryCard where
  id : String
  name : String
  mana_cost : Option String
  cmc : Nat
  type_line : String
  oracle_text : Option String
  colors : List String
  color_identity : List String
  keywords : Option (List String)
  power : Option String
  toughness : Option String
  image_uris : Option String
  prices : String
  legalities : String
  set : String
  set_name : String
  rarity : String
deriving DecidableEq, Repr

/-- A successful search response (`ScryfallSearchResponse`). -/
structure SearchResponse where
  object : String
  total_cards : Nat
  has_more : Bool
  data : List ScryCard
deriving DecidableEq, Repr

/-- The parsed JSON body of a search response: either a list payload or an
error object carrying a `code` and optional `details`
(`data.object === 'error'` in the source). -/
inductive ScryfallPayload where
  | list (r : SearchResponse)
  | err (code : String) (details : Option String)
deriving DecidableEq, Repr

/-- Error-normalisation logic of `ScryfallService.searchCards`, given the
parsed body of the (rate-limited) HTTP response.  Translated from the
source: an error body with code `not_found` becomes an empty successful
list; any other error body throws `data.details || 'Unknown Scryfall
error'`; a list body is returned unchanged. -/
def searchCards : ScryfallPayload → Except String SearchResponse
  | ScryfallPayload.err code details =>
    if code == "not_found" then
      Except.ok { object := "list", total_cards := 0, has_more := false, data := [] }
    else
      Except.error (jsOrDefault details "Unknown Scryfall error")
  | ScryfallPayload.list r => Except.ok r

/-- The filter object accepted by `ScryfallService.advancedSearch`.
JS arrays are modelled as `List` (the source guards each with
`x && x.length > 0`, under which `undefined` and `[]` coincide); the
optional booleans `legal`/`banned` are modelled as `Bool` (the source
tests truthiness, under which `undefined` and `false` coincide). -/
structure AdvancedFilters where
  name : Option String
  colors : List String
  colorIdentity : List String
  types : List String
  text : Option String
  manaValueMin : Option Nat
  manaValueMax : Option Nat
  powerMin : Option Nat
  powerMax : Option Nat
  toughnessMin : Option Nat
  toughnessMax : Option Nat
  sets : List String
  rarity : List String
  format : Option String
  banned : Bool
  legal : Bool
deriving Repr

/-- The filter object with every field absent. -/
def emptyFilters : AdvancedFilters :=
  { name := none, colors := [], colorIdentity := [], types := [], text := none,
    manaValueMin := none, manaValueMax := none, powerMin := none, powerMax := none,
    toughnessMin := none, toughnessMax := none, sets := [], rarity := [],
    format := none, banned := false, legal := false }

/-- One clause for a truthy optional string field (`if (filters.name)`:
the empty string is falsy and contributes nothing). -/
def strClause (v : Option String) (mk : String → String) : List String :=
  match v with
  | some s => if s == "" then [] else [mk s]
  | none => []

/-- One clause for an optional numeric bound
(`if (filters.x?.min !== undefined)`). -/
def numClause (v : Option Nat) (mk : Nat → String) : List String :=
  match v with
  | some n => [mk n]
  | none => []

/-- Query-compilation logic of `ScryfallService.advancedSearch`, clause by
clause in source order; the parts are joined with single spaces
(`queryParts.join(' ')`). -/
def advancedSearchQuery (f : AdvancedFilters) : String :=
  let queryParts : List String :=
    strClause f.name (fun s => "name:\"" ++ s ++ "\"")
    ++ (if f.colors.isEmpty then [] else ["c:" ++ String.join f.colors])
    ++ (if f.colorIdentity.isEmpty then [] else ["id:" ++ String.join f.colorIdentity])
    ++ (if f.types.isEmpty then [] else
        ["(" ++ String.intercalate " OR " (f.types.map (fun t => "t:\"" ++ t ++ "\"")) ++ ")"])
    ++ strClause f.text (fun s => "o:\"" ++ s ++ "\"")
    ++ numClause f.manaValueMin (fun n => "cmc>=" ++ toString n)
    ++ numClause f.manaValueMax (fun n => "cmc<=" ++ toString n)
    ++ numClause f.powerMin (fun n => "pow>=" ++ toString n)
    ++ numClause f.powerMax (fun n => "pow<=" ++ toString n)
    ++ numClause f.toughnessMin (fun n => "tou>=" ++ toString n)
    ++ numClause f.toughnessMax (fun n => "tou<=" ++ toString n)
    ++ (if f.sets.isEmpty then [] else
        ["(" ++ String.intercalate " OR " (f.sets.map (fun s => "s:\"" ++ s ++ "\"")) ++ ")"])
    ++ (if f.rarity.isEmpty then [] else
        ["(" ++ String.intercalate " OR " (f.rarity.map (fun r => "r:\"" ++ r ++ "\"")) ++ ")"])
    ++ (match f.format with
        | some fmt =>
          if fmt == "" then []
          else if f.legal then ["f:" ++ fmt]
          else if f.banned then ["banned:" ++ fmt]
          else []
        | none => [])
  String.intercalate " " queryParts

/-! ### Collection data model and the add route
(`apps/web/src/app/api/collection/add/route.ts`) -/

/-- The seven physical condition grades
(`AddToCollectionSchema`'s `condition` enum). -/
inductive Condition where
  | mint | near_mint | excellent | good | light_played | played | poor
deriving DecidableEq, Repr

/-- A row of the `collection_cards` table (`CollectionCard` in
`packages/shared/src/types.ts`, without the optional joined relation). -/
structure CollectionRow where
  id : String
  user_id : String
  scryfall_id : String
  quantity : Nat
  condition : Condition
  foil : Bool
  notes : Option String
  added_at : String
  updated_at : String
deriving DecidableEq, Repr

/-- A validated `POST /api/collection/add` body (`AddToCollectionSchema`). -/
structure AddRequest where
  scryfall_id : String
  quantity : Nat
  condition : Condition
  foil : Bool
  notes : Option String
deriving DecidableEq, Repr

/-- The predicate of the add route's existing-row lookup: the source
chains `.eq` on `user_id`, `scryfall_id`, `condition` and `foil`. -/
def addMatches (uid : String) (req : AddRequest) (r : CollectionRow) : Bool :=
  r.user_id == uid && r.scryfall_id == req.scryfall_id
    && r.condition == req.condition && r.foil == req.foil

/-- The row written by the update branch of the add route: the update
statement sets exactly `quantity` (to `existingCard.quantity +
validatedData.quantity`) and `notes` (to `validatedData.notes ||
existingCard.notes`). -/
def mergedRow (existingCard : CollectionRow) (req : AddRequest) : CollectionRow :=
  { existingCard with
      quantity := existingCard.quantity + req.quantity,
      notes := jsOrStr req.notes existingCard.notes }

/-- The row written by the insert branch of the add route (`newId` and
`now` stand for the database-generated id and timestamps). -/
def insertedRow (uid : String) (req : AddRequest) (newId now : String) : CollectionRow :=
  { id := newId, user_id := uid, scryfall_id := req.scryfall_id,
    quantity := req.quantity, condition := req.condition, foil := req.foil,
    notes := req.notes, added_at := now, updated_at := now }

/-- State transition of the authenticated add route on the
`collection_cards` table, translated from the source.  The lookup uses
`.single()`, which yields a row only when exactly one row matches
(`existingCard` is null — and the insert branch is taken — on zero or
several matches); the update branch rewrites the row with the matching
`id`; the insert branch appends a fresh row. -/
def addToCollection (db : List CollectionRow) (uid : String) (req : AddRequest)
    (newId now : String) : List CollectionRow :=
  match db.filter (addMatches uid req) with
  | [existingCard] =>
    db.map (fun r => if r.id == existingCard.id then mergedRow existingCard req else r)
  | _ => db ++ [insertedRow uid req newId now]

/-! ### Cache-and-enrich pipeline
(`GET /api/cards/search` in `apps/web/src/app/api/cards/search/route.ts`) -/

/-- A row of the `cards_cache` table (`CardCache` in
`packages/shared/src/types.ts`). -/
structure CardCacheRow where
  scryfall_id : String
  name : String
  mana_cost : Option String
  cmc : Nat
  type_line : String
  oracle_text : Option String
  colors : List String
  color_identity : List String
  keywords : Option (List String)
  power : Option String
  toughness : Option String
  image_uris : Option String
  local_image_url : Option String
  prices : Option String
  legalities : Option String
  set_code : String
  rarity : String
  created_at : String
  updated_at : String
deriving DecidableEq, Repr

/-- The fallback record the route builds directly from the Scryfall
payload when caching fails, with `created_at`/`updated_at` set to the
current time (`local_image_url` is not part of the literal, hence
absent). -/
def fallbackCacheRow (now : String) (card : ScryCard) : CardCacheRow :=
  { scryfall_id := card.id, name := card.name, mana_cost := card.mana_cost,
    cmc := card.cmc, type_line := card.type_line, oracle_text := card.oracle_text,
    colors := card.colors, color_identity := card.color_identity,
    keywords := card.keywords, power := card.power, toughness := card.toughness,
    image_uris := card.image_uris, local_image_url := none,
    prices := some card.prices, legalities := some card.legalities,
    set_code := card.set, rarity := card.rarity,
    created_at := now, updated_at := now }

/-- Outcomes of the two fallible cache calls for one card:
`cacheGet` is the result of `getCardFromCache` (`none` models a thrown
error — a database error or a cache miss, since `withErrorHandling`
throws on both), and `cacheInsert` the result of `insertCardToCache`
(`none` models a thrown error). -/
structure EnrichEnv where
  cacheGet : Option CardCacheRow
  cacheInsert : Option CardCacheRow
deriving Repr

/-- An element of the enriched response page: the cache row spread
together with the two ownership fields. -/
structure EnrichedCard where
  card : CardCacheRow
  in_collection : Bool
  collection_quantity : Nat
deriving DecidableEq, Repr

/-- Modelled from the spec: row-level auth on the hosted database.  The
repository's row-level security policies live in its database migrations,
which are not under `src/`; per the spec's data model, a `CollectionEntry`
"is exclusively owned by its user" and queries issued through the
user-session client see only that user's rows. -/
def visibleRows (db : List CollectionRow) (uid : String) : List CollectionRow :=
  db.filter (fun r => r.user_id == uid)

/-- Result of the route's ownership lookup
(`.select('quantity').eq('scryfall_id', card.id).single()` on the
user-session client): `.single()` yields data exactly when one row
matches; on zero or several matches it yields an error, which the route
discards, leaving `collectionCard` null. -/
def ownershipLookup (db : List CollectionRow) (uid sid : String) : Option Nat :=
  match (visibleRows db uid).filter (fun r => r.scryfall_id == sid) with
  | [r] => some r.quantity
  | _ => none

/-- Per-card enrichment step, translated from the source.  The route tries
`getCardFromCache`; on a thrown error it falls back to
`insertCardToCache`; if that also throws, the outer catch returns the
minimal fallback record with `in_collection: false` and
`collection_quantity: 0`.  Otherwise the ownership lookup (which never
throws: its error is discarded) supplies the two collection fields. -/
def enrichCard (env : EnrichEnv) (db : List CollectionRow) (uid : String)
    (now : String) (card : ScryCard) : EnrichedCard :=
  let cachedCard :=
    match env.cacheGet with
    | some c => some c
    | none => env.cacheInsert
  match cachedCard with
  | some c =>
    let collectionCard := ownershipLookup db uid card.id
    { card := c, in_collection := collectionCard.isSome,
      collection_quantity := collectionCard.getD 0 }
  | none =>
    { card := fallbackCacheRow now card, in_collection := false,
      collection_quantity := 0 }

/-- The page-level enrichment (`Promise.all(searchResult.data.map(...))`),
with `envOf` giving each card's cache-call outcomes. -/
def processPage (envOf : ScryCard → EnrichEnv) (db : List CollectionRow)
    (uid now : String) (cards : List ScryCard) : List EnrichedCard :=
  cards.map (fun c => enrichCard (envOf c) db uid now c)

/-! ### Collection query builder
(`GET /api/collection/search` in `packages/database/src/client.ts`) -/

/-- A collection row joined with its cache row, as produced by the
route's `select('*, card:cards_cache(*)')`. -/
structure JoinedEntry where
  entry : CollectionRow
  card : CardCacheRow
deriving DecidableEq, Repr

/-- The sort keys accepted by `SearchCollectionSchema`. -/
inductive SortKey where
  | name | cmc | rarity | set | added_at
deriving DecidableEq, Repr

/-- The sort directions accepted by `SearchCollectionSchema`. -/
inductive SortOrder where
  | asc | desc
deriving DecidableEq, Repr

/-- A validated `GET /api/collection/search` parameter set
(`SearchCollectionSchema`; absent lists modelled as `[]`, which the
source's guards treat identically to `undefined`). -/
structure CollParams where
  q : Option String
  colors : List String
  types : List String
  sets : List String
  cmc_min : Option Nat
  cmc_max : Option Nat
  rarity : List String
  sort : SortKey
  order : SortOrder
  page : Nat
  limit : Nat
deriving Repr

/-- The free-text clause: when `q` is truthy the source adds
`.or(card.name.ilike.%q%, card.oracle_text.ilike.%q%,
card.type_line.ilike.%q%)`; a null `oracle_text` matches no ILIKE. -/
def qMatches (q : Option String) (card : CardCacheRow) : Bool :=
  match q with
  | some s =>
    if s == "" then true
    else
      ilikeContains card.name s
      || (match card.oracle_text with
          | some t => ilikeContains t s
          | none => false)
      || ilikeContains card.type_line s
  | none => true

/-- The filter predicate of the data query, clause by clause in source
order: free-text `.or`, colors `.overlaps`, types ILIKE-`.or`, sets
`.in`, `cmc` `.gte`/`.lte`, rarity `.in`; chained filters conjoin. -/
def matchesFilters (p : CollParams) (e : JoinedEntry) : Bool :=
  qMatches p.q e.card
  && (if p.colors.isEmpty then true
      else e.card.colors.any (fun c => p.colors.contains c))
  && (if p.types.isEmpty then true
      else p.types.any (fun t => ilikeContains e.card.type_line t))
  && (if p.sets.isEmpty then true else p.sets.contains e.card.set_code)
  && (match p.cmc_min with | some m => m ≤ e.card.cmc | none => true)
  && (match p.cmc_max with | some m => e.card.cmc ≤ m | none => true)
  && (if p.rarity.isEmpty then true else p.rarity.contains e.card.rarity)

/-- The filter predicate of the count query — the source builds it a
second time, clause for clause, on `countQuery`. -/
def matchesFiltersCount (p : CollParams) (e : JoinedEntry) : Bool :=
  qMatches p.q e.card
  && (if p.colors.isEmpty then true
      else e.card.colors.any (fun c => p.colors.contains c))
  && (if p.types.isEmpty then true
      else p.types.any (fun t => ilikeContains e.card.type_line t))
  && (if p.sets.isEmpty then true else p.sets.contains e.card.set_code)
  && (match p.cmc_min with | some m => m ≤ e.card.cmc | none => true)
  && (match p.cmc_max with | some m => e.card.cmc ≤ m | none => true)
  && (if p.rarity.isEmpty then true else p.rarity.contains e.card.rarity)

/-- The `ORDER BY` comparison for one sort key (the source's
`sortColumn` conditional: name, cmc, rarity and set sort on the joined
card columns, added_at on the collection row; string columns sort
lexicographically). -/
def keyLe (k : SortKey) (a b : JoinedEntry) : Bool :=
  match k with
  | SortKey.name => !(decide (b.card.name < a.card.name))
  | SortKey.cmc => decide (a.card.cmc ≤ b.card.cmc)
  | SortKey.rarity => !(decide (b.card.rarity < a.card.rarity))
  | SortKey.set => !(decide (b.card.set_code < a.card.set_code))
  | SortKey.added_at => !(decide (b.entry.added_at < a.entry.added_at))

/-- The comparison after applying the direction
(`{ ascending: validatedParams.order === 'asc' }`). -/
def entryLe (k : SortKey) (o : SortOrder) (a b : JoinedEntry) : Bool :=
  match o with
  | SortOrder.asc => keyLe k a b
  | SortOrder.desc => keyLe k b a

/-- Insertion of one element into a list sorted by `le`. -/
def insertSorted {α : Type} (le : α → α → Bool) (x : α) : List α → List α
  | [] => [x]
  | y :: ys => if le x y then x :: y :: ys else y :: insertSorted le x ys

/-- Sorting by `le` (models the database's `ORDER BY`). -/
def sortByLe {α : Type} (le : α → α → Bool) : List α → List α
  | [] => []
  | x :: xs => insertSorted le x (sortByLe le xs)

/-- The page object the route returns. -/
structure CollectionPage where
  data : List JoinedEntry
  page : Nat
  limit : Nat
  total : Nat
  hasMore : Bool
deriving Repr

/-- The authenticated collection-search route on the success path,
translated from the source: the data query scopes to the user, applies
the filters, sorts, and windows with
`.range(offset, offset + limit - 1)` where `offset = (page-1)*limit`
(an inclusive range, i.e. at most `limit` rows from position `offset`);
the count query scopes to the user and applies the separately built
count filters; `hasMore` is `count > page * limit`. -/
def collectionSearchRun (db : List JoinedEntry) (uid : String)
    (p : CollParams) : CollectionPage :=
  let rows := (db.filter (fun e => e.entry.user_id == uid)).filter (matchesFilters p)
  let sorted := sortByLe (entryLe p.sort p.order) rows
  let offset := (p.page - 1) * p.limit
  let data := (sorted.drop offset).take p.limit
  let count :=
    ((db.filter (fun e => e.entry.user_id == uid)).filter (matchesFiltersCount p)).length
  { data := data, page := p.page, limit := p.limit, total := count,
    hasMore := decide (count > p.page * p.limit) }

/-! ### Route status codes
(the three route handlers' control flow around auth and validation) -/

/-- Outcome of a route's downstream work once input is validated and the
caller authenticated: success or an unexpected (non-Zod) throw. -/
inductive WorkOutcome where
  | ok | failed
deriving DecidableEq, Repr

/-- HTTP status of `GET /api/cards/search`, translated from the source's
control flow: the Zod parse runs first inside the try (a `ZodError` is
caught as 400), the auth check returns 401, and any other throw is caught
as 500. -/
def cardsSearchStatus (validParams authed : Bool) (work : WorkOutcome) : Nat :=
  if !validParams then 400
  else if !authed then 401
  else match work with
    | WorkOutcome.ok => 200
    | WorkOutcome.failed => 500

/-- HTTP status of `GET /api/collection/search`: same shape — parse and
validate, then auth, then the queries. -/
def collectionSearchStatus (validParams authed : Bool) (work : WorkOutcome) : Nat :=
  if !validParams then 400
  else if !authed then 401
  else match work with
    | WorkOutcome.ok => 200
    | WorkOutcome.failed => 500

/-- HTTP status of `POST /api/collection/add`: `request.json()` runs
first (a malformed body throws a non-Zod error, caught as 500), then the
Zod parse (400), then auth (401), then the cache-existence check (404),
then the insert/update work. -/
def addRouteStatus (jsonOk validBody authed cardInCache : Bool)
    (work : WorkOutcome) : Nat :=
  if !jsonOk then 500
  else if !validBody then 400
  else if !authed then 401
  else if !cardInCache then 404
  else match work with
    | WorkOutcome.ok => 200
    | WorkOutcome.failed => 500

/-! ### Adjacency spacing predicate and concrete fixtures -/

/-- Every pair of consecutive elements of the list is at least `gap`
apart. -/
def spacedBy (gap : Int) : List Int → Prop
  | [] => True
  | [_] => True
  | a :: b :: rest => a + gap ≤ b ∧ spacedBy gap (b :: rest)

/-- A stubbed 429 response. -/
def resp429 : HttpResponse := { status := 429, statusText := "Too Many Requests" }

/-- A stubbed 200 response. -/
def resp200 : HttpResponse := { status := 200, statusText := "OK" }

/-- A concrete collection row: user `u1` owns two copies of card `abc`
in near-mint, non-foil, with a note. -/
def rowOld : CollectionRow :=
  { id := "1", user_id := "u1", scryfall_id := "abc", quantity := 2,
    condition := Condition.near_mint, foil := false, notes := some "old",
    added_at := "t0", updated_at := "t0" }

/-- A second concrete row for the same user and card, differing in the
foil flag. -/
def rowFoil : CollectionRow :=
  { id := "2", user_id := "u1", scryfall_id := "abc", quantity := 1,
    condition := Condition.near_mint, foil := true, notes := none,
    added_at := "t0", updated_at := "t0" }

/-- A table in which user `u1` holds two entries for card `abc`. -/
def dbTwoEntries : List CollectionRow := [rowOld, rowFoil]

/-- An add request matching `rowOld` on (user, card, condition, foil). -/
def addReqSame : AddRequest :=
  { scryfall_id := "abc", quantity := 3, condition := Condition.near_mint,
    foil := false, notes := some "mint set" }

/-- An add request for the same card with a foil the user does not yet
have together with this condition. -/
def addReqFoilOnly : AddRequest :=
  { scryfall_id := "abc", quantity := 3, condition := Condition.poor,
    foil := true, notes := none }

/-- An add request matching `rowOld` whose notes field carries the empty
string. -/
def addReqEmptyNotes : AddRequest :=
  { scryfall_id := "abc", quantity := 3, condition := Condition.near_mint,
    foil := false, notes := some "" }

/-- A concrete external card payload with id `abc`. -/
def sampleCard : ScryCard :=
  { id := "abc", name := "Lightning Bolt", mana_cost := some "R", cmc := 1,
    type_line := "Instant", oracle_text := some "deal 3 damage",
    colors := ["R"], color_identity := ["R"], keywords := none,
    power := none, toughness := none, image_uris := none,
    prices := "usd 1.0", legalities := "modern legal",
    set := "lea", set_name := "Alpha", rarity := "common" }

/-- A concrete cache row for card `abc`. -/
def cachedRowSample : CardCacheRow :=
  { scryfall_id := "abc", name := "Lightning Bolt", mana_cost := some "R",
    cmc := 1, type_line := "Instant", oracle_text := some "deal 3 damage",
    colors := ["R"], color_identity := ["R"], keywords := none,
    power := none, toughness := none, image_uris := none,
    local_image_url := none, prices := some "usd 1.0",
    legalities := some "modern legal", set_code := "lea",
    rarity := "common", created_at := "t0", updated_at := "t0" }

/-- Cache-call outcomes with a successful cache read. -/
def envCached : EnrichEnv :=
  { cacheGet := some cachedRowSample, cacheInsert := none }

/-- Cache-call outcomes in which both the read and the insert throw. -/
def envFailed : EnrichEnv :=
  { cacheGet := none, cacheInsert := none }

/-! ### Helper lemmas -/

/-- The dispatch computed by one rate-limited call is at least
`REQUEST_DELAY` after the stored last-request time. -/
theorem le_dispatchTime (last now : Int) :
    last + REQUEST_DELAY ≤ dispatchTime last now := by
  unfold dispatchTime
  by_cases h : now - last < REQUEST_DELAY
  · simp only [if_pos h]
    omega
  · simp only [if_neg h]
    omega

/-- Consecutive spacing is preserved by dropping the head. -/
theorem spacedBy_tail {g : Int} {a : Int} {l : List Int}
    (h : spacedBy g (a :: l)) : spacedBy g l := by
  cases l with
  | nil => trivial
  | cons b rest => exact h.2

/-- Sequential dispatches, prefixed with the stored last-request time,
are consecutively spaced by `REQUEST_DELAY`. -/
theorem seqDispatches_spacing_cons (ts : List Int) (last : Int) :
    spacedBy REQUEST_DELAY (last :: seqDispatches last ts) := by
  induction ts generalizing last with
  | nil => trivial
  | cons t ts ih =>
    exact ⟨le_dispatchTime last t, ih (dispatchTime last t)⟩

/-- When the existing-row lookup matches exactly one row, the add route
updates that row in place. -/
theorem addToCollection_single_eq (db : List CollectionRow) (uid : String)
    (req : AddRequest) (e : CollectionRow) (newId now : String)
    (h : db.filter (addMatches uid req) = [e]) :
    addToCollection db uid req newId now
      = db.map (fun r => if r.id == e.id then mergedRow e req else r) := by
  unfold addToCollection
  rw [h]

/-- When the existing-row lookup matches no row, the add route appends a
fresh row. -/
theorem addToCollection_none_eq (db : List CollectionRow) (uid : String)
    (req : AddRequest) (newId now : String)
    (h : db.filter (addMatches uid req) = []) :
    addToCollection db uid req newId now = db ++ [insertedRow uid req newId now] := by
  unfold addToCollection
  rw [h]

/-! ### Claim theorems -/

/-- C1: the claim says a second consecutive 429 propagates as a failure
after exactly one retry.  Evaluating the client's retry logic at the
failing input — three successive responses 429, 429, 200 — shows the code
instead retries again after the second 429 and returns the third
response: the recursion `return rateLimitedFetch(url, options)` re-enters
the full retry logic, so retries on 429 are unbounded, contradicting the
source's own comment "Rate limited, wait and retry once". -/
theorem rateLimitedFetch_retries_after_second_429 :
    rateLimitedFetchTrace [resp429, resp429, resp200]
      = some (Except.ok resp200) := by rfl

/-- C3: on an API-level error with code `not_found` the gateway returns a
successful empty result (zero total, no pagination, empty data) and never
throws, whatever the details field holds; on any other API-level error
carrying a (non-empty) detail message it fails with exactly that
message. -/
theorem searchCards_error_handling (code : String) (details : Option String)
    (d : String) :
    searchCards (ScryfallPayload.err "not_found" details)
      = Except.ok { object := "list", total_cards := 0, has_more := false, data := [] }
    ∧ (code ≠ "not_found" → details = some d → d ≠ "" →
        searchCards (ScryfallPayload.err code details) = Except.error d) := by
  constructor
  · rfl
  · intro hc hdet hd
    subst hdet
    simp only [searchCards, beq_iff_eq, if_neg hc, jsOrDefault, beq_iff_eq ]
    rw [if_neg hd]

/-- C3 witness: concrete instances — `not_found` yields the empty result,
and an error with code `bad` and details `Boom` yields the error
`Boom`. -/
theorem searchCards_error_handling_witness :
    ("bad" : String) ≠ "not_found" ∧ ("Boom" : String) ≠ ""
    ∧ searchCards (ScryfallPayload.err "not_found" (some "x"))
        = Except.ok { object := "list", total_cards := 0, has_more := false, data := [] }
    ∧ searchCards (ScryfallPayload.err "bad" (some "Boom")) = Except.error "Boom" :=
  ⟨by decide, by decide,
   (searchCards_error_handling "bad" (some "x") "Boom").1,
   (searchCards_error_handling "bad" (some "Boom") "Boom").2 (by decide) rfl (by decide)⟩

/-- C8: when the only non-empty filter field is a `sets` list, the
compiled query is exactly one parenthesized clause whose per-set terms
(one per list element) are joined by OR. -/
theorem advancedSearchQuery_sets_only (l : List String) (h : l ≠ []) :
    advancedSearchQuery { emptyFilters with sets := l }
      = "(" ++ String.intercalate " OR " (l.map (fun s => "s:\"" ++ s ++ "\"")) ++ ")"
    ∧ (l.map (fun s => "s:\"" ++ s ++ "\"")).length = l.length := by
  cases l with
  | nil => exact absurd rfl h
  | cons x xs =>
    constructor
    · simp only [advancedSearchQuery, emptyFilters, strClause, numClause,
        List.isEmpty_cons, List.isEmpty_nil, if_true, if_false, Bool.false_eq_true,
        List.nil_append, List.append_nil]
      rfl
    · simp [List.length_map]

/-- C8 witness: the two-set filter compiles to a single OR clause with
two set terms. -/
theorem advancedSearchQuery_sets_only_witness :
    (["abc", "def"] : List String) ≠ []
    ∧ advancedSearchQuery { emptyFilters with sets := ["abc", "def"] }
        = "(" ++ String.intercalate " OR "
            ((["abc", "def"] : List String).map (fun s => "s:\"" ++ s ++ "\"")) ++ ")" :=
  ⟨by decide, (advancedSearchQuery_sets_only ["abc", "def"] (by decide)).1⟩

/-- C9 counterexample: two overlapped callers violate the minimum
interval.  With stored last-request time 0, caller 1 enters at clock 10
and sleeps until 100; caller 2 enters at clock 20 — before caller 1's
dispatch at 100, so caller 1 has not yet written `lastRequestTime` and
caller 2 reads the stale value 0 — and also sleeps until 100.  Both
requests dispatch at clock 100: the gap between consecutive dispatches is
0 ms, not at least 100 ms. -/
theorem overlapped_callers_violate_interval :
    overlappedDispatches 0 10 20 = (100, 100)
    ∧ (10 : Int) ≤ 20 ∧ (20 : Int) < (overlappedDispatches 0 10 20).1
    ∧ ¬((overlappedDispatches 0 10 20).1 + REQUEST_DELAY
          ≤ (overlappedDispatches 0 10 20).2) := by decide

/-- C9 (amended): for sequential calls — each call entering the client
only after the previous one has dispatched and written
`lastRequestTime` — every pair of consecutive dispatch times is at least
`REQUEST_DELAY` (100 ms) apart, and the interval is measured between
dispatch start times. -/
theorem seqDispatches_spacing (last : Int) (ts : List Int) :
    spacedBy REQUEST_DELAY (seqDispatches last ts) :=
  spacedBy_tail (seqDispatches_spacing_cons ts last)

/-- C2: an add call whose (user, card, condition, foil) matches exactly
one existing row updates that row in place — its quantity becomes
`existing.quantity + requested.quantity` and no row is added — while an
add call matching no existing row appends exactly one fresh row carrying
the requested values. -/
theorem addToCollection_upsert (db : List CollectionRow) (uid : String)
    (req : AddRequest) (e : CollectionRow) (newId now : String) :
    (db.filter (addMatches uid req) = [e] →
      addToCollection db uid req newId now
        = db.map (fun r => if r.id == e.id then mergedRow e req else r)
      ∧ (mergedRow e req).quantity = e.quantity + req.quantity
      ∧ (addToCollection db uid req newId now).length = db.length)
    ∧ (db.filter (addMatches uid req) = [] →
      addToCollection db uid req newId now = db ++ [insertedRow uid req newId now]
      ∧ (addToCollection db uid req newId now).length = db.length + 1
      ∧ (insertedRow uid req newId now).quantity = req.quantity
      ∧ (insertedRow uid req newId now).condition = req.condition
      ∧ (insertedRow uid req newId now).foil = req.foil
      ∧ (insertedRow uid req newId now).user_id = uid) := by
  constructor
  · intro h
    refine ⟨addToCollection_single_eq db uid req e newId now h, rfl, ?_⟩
    rw [addToCollection_single_eq db uid req e newId now h, List.length_map]
  · intro h
    refine ⟨addToCollection_none_eq db uid req newId now h, ?_, rfl, rfl, rfl, rfl⟩
    rw [addToCollection_none_eq db uid req newId now h, List.length_append]
    rfl

/-- C2 witness: merging into `rowOld` keeps one row with quantity 2+3,
while adding a new (condition, foil) combination appends a second row. -/
theorem addToCollection_upsert_witness :
    ([rowOld].filter (addMatches "u1" addReqSame) = [rowOld]
      ∧ (addToCollection [rowOld] "u1" addReqSame "9" "t1").length = 1
      ∧ (mergedRow rowOld addReqSame).quantity = rowOld.quantity + addReqSame.quantity)
    ∧ ([rowOld].filter (addMatches "u1" addReqFoilOnly) = []
      ∧ (addToCollection [rowOld] "u1" addReqFoilOnly "9" "t1").length = 2) :=
  ⟨⟨by decide,
    ((addToCollection_upsert [rowOld] "u1" addReqSame rowOld "9" "t1").1 (by decide)).2.2,
    ((addToCollection_upsert [rowOld] "u1" addReqSame rowOld "9" "t1").1 (by decide)).2.1⟩,
   ⟨by decide,
    ((addToCollection_upsert [rowOld] "u1" addReqFoilOnly rowOld "9" "t1").2 (by decide)).2.1⟩⟩

/-- C10 counterexample: a duplicate add that provides the empty string as
its notes does not overwrite the row's previous notes.  `rowOld` carries
notes `old`; the request `addReqEmptyNotes` provides notes `""`
(accepted by the schema); after the merge the row still carries `old`,
because the update computes `validatedData.notes || existingCard.notes`
and the empty string is falsy. -/
theorem addToCollection_empty_notes_kept :
    addReqEmptyNotes.notes = some ""
    ∧ (addToCollection [rowOld] "u1" addReqEmptyNotes "9" "t1").map
        CollectionRow.notes = [some "old"]
    ∧ (some "" : Option String) ≠ some "old" := by decide

/-- C10 (amended): when an add call merges into the unique matching row,
only the quantity and notes fields change — `user_id`, `scryfall_id`,
`condition`, `foil`, `id` and the timestamps are untouched; quantity
becomes `existing.quantity + requested.quantity`; notes becomes the
requested notes when provided and non-empty, and keeps the existing notes
when the requested notes are absent or the empty string. -/
theorem addToCollection_merge_frame (db : List CollectionRow) (uid : String)
    (req : AddRequest) (e : CollectionRow) (newId now : String)
    (h : db.filter (addMatches uid req) = [e]) :
    addToCollection db uid req newId now
      = db.map (fun r => if r.id == e.id then mergedRow e req else r)
    ∧ mergedRow e req
      = { e with quantity := e.quantity + req.quantity,
                 notes := jsOrStr req.notes e.notes }
    ∧ (∀ s, req.notes = some s → s ≠ "" → (mergedRow e req).notes = some s)
    ∧ (req.notes = none → (mergedRow e req).notes = e.notes)
    ∧ (req.notes = some "" → (mergedRow e req).notes = e.notes) := by
  refine ⟨addToCollection_single_eq db uid req e newId now h, rfl, ?_, ?_, ?_⟩
  · intro s hs hne
    simp only [mergedRow, jsOrStr, hs]
    rw [if_neg (by simpa using hne)]
  · intro hn
    simp [mergedRow, jsOrStr, hn]
  · intro hn
    simp [mergedRow, jsOrStr, hn]

/-- C10 witness: merging `addReqSame` (non-empty notes) into `rowOld`
rewrites exactly that row, and its notes become the requested ones. -/
theorem addToCollection_merge_frame_witness :
    ([rowOld].filter (addMatches "u1" addReqSame) = [rowOld]
      ∧ mergedRow rowOld addReqSame
          = { rowOld with quantity := rowOld.quantity + addReqSame.quantity,
                          notes := jsOrStr addReqSame.notes rowOld.notes }
      ∧ (mergedRow rowOld addReqSame).notes = some "mint set") :=
  ⟨by decide,
   (addToCollection_merge_frame [rowOld] "u1" addReqSame rowOld "9" "t1" (by decide)).2.1,
   (addToCollection_merge_frame [rowOld] "u1" addReqSame rowOld "9" "t1"
      (by decide)).2.2.1 "mint set" rfl (by decide)⟩

/-- C4: the enriched page has exactly as many elements as the external
result's data array, and a card for which both the cache read and the
cache insert throw degrades to the minimal record built from the
external payload with `in_collection: false` and
`collection_quantity: 0` (the pipeline itself is total: no per-card
failure fails the page). -/
theorem processPage_length_and_degrade (envOf : ScryCard → EnrichEnv)
    (db : List CollectionRow) (uid now : String) (cards : List ScryCard) :
    (processPage envOf db uid now cards).length = cards.length
    ∧ ∀ c, (envOf c).cacheGet = none → (envOf c).cacheInsert = none →
        enrichCard (envOf c) db uid now c
          = { card := fallbackCacheRow now c, in_collection := false,
              collection_quantity := 0 } := by
  refine ⟨by simp [processPage], ?_⟩
  intro c h1 h2
  simp [enrichCard, h1, h2]

/-- C4 witness: a one-card page whose cache calls both fail still has
one element, and that element is the degraded minimal record. -/
theorem processPage_length_and_degrade_witness :
    envFailed.cacheGet = none ∧ envFailed.cacheInsert = none
    ∧ (processPage (fun _ => envFailed) [] "u1" "t0" [sampleCard]).length = 1
    ∧ enrichCard envFailed [] "u1" "t0" sampleCard
        = { card := fallbackCacheRow "t0" sampleCard, in_collection := false,
            collection_quantity := 0 } :=
  ⟨rfl, rfl,
   (processPage_length_and_degrade (fun _ => envFailed) [] "u1" "t0" [sampleCard]).1,
   (processPage_length_and_degrade (fun _ => envFailed) [] "u1" "t0"
      [sampleCard]).2 sampleCard rfl rfl⟩

/-- C5: for every collection search, the returned data window is the
filtered, sorted rows starting at offset `(page-1)*limit`, has at most
`limit` elements, and `hasMore` holds exactly when the total — computed
by the count query, whose separately built predicate coincides with the
data query's — exceeds `page*limit`. -/
theorem collectionSearch_pagination (db : List JoinedEntry) (uid : String)
    (p : CollParams) :
    (collectionSearchRun db uid p).data.length ≤ p.limit
    ∧ ((collectionSearchRun db uid p).hasMore = true
        ↔ (collectionSearchRun db uid p).total > p.page * p.limit)
    ∧ (collectionSearchRun db uid p).total
        = ((db.filter (fun e => e.entry.user_id == uid)).filter (matchesFilters p)).length
    ∧ (collectionSearchRun db uid p).data
        = ((sortByLe (entryLe p.sort p.order)
            ((db.filter (fun e => e.entry.user_id == uid)).filter (matchesFilters p))).drop
            ((p.page - 1) * p.limit)).take p.limit := by
  refine ⟨?_, ?_, rfl, rfl⟩
  · simp only [collectionSearchRun, List.length_take]
    exact min_le_left _ _
  · simp only [collectionSearchRun, decide_eq_true_eq]

/-- C6 counterexample: the requesting user `u1` owns card `abc` through
two collection entries (non-foil and foil), yet the enriched result
carries `in_collection = false` and quantity 0: the ownership lookup uses
`.single()`, which errors on more than one row, and the route discards
the error. -/
theorem enrichCard_two_entries_flag_false :
    (enrichCard envCached dbTwoEntries "u1" "t0" sampleCard).in_collection = false
    ∧ (enrichCard envCached dbTwoEntries "u1" "t0" sampleCard).collection_quantity = 0
    ∧ (dbTwoEntries.filter
        (fun r => r.user_id == "u1" && r.scryfall_id == sampleCard.id)).length = 2 := by
  decide

/-- C6 (amended): on the cached path, `in_collection` is true exactly
when the requesting user has exactly one collection entry for the card's
external identifier (rows are scoped to that user by row-level auth,
modelled in `visibleRows`); when the user has exactly one such entry the
attached quantity is that entry's quantity, and with zero or several
entries the quantity is 0. -/
theorem enrichCard_ownership_single (env : EnrichEnv) (db : List CollectionRow)
    (uid now : String) (card : ScryCard) (c : CardCacheRow)
    (h : env.cacheGet = some c) :
    ((enrichCard env db uid now card).in_collection
       = (((visibleRows db uid).filter (fun r => r.scryfall_id == card.id)).length == 1))
    ∧ (∀ r, (visibleRows db uid).filter (fun r => r.scryfall_id == card.id) = [r] →
        (enrichCard env db uid now card).collection_quantity = r.quantity)
    ∧ (((visibleRows db uid).filter (fun r => r.scryfall_id == card.id)).length ≠ 1 →
        (enrichCard env db uid now card).collection_quantity = 0) := by
  simp only [enrichCard, ownershipLookup, h]
  cases hl : (visibleRows db uid).filter (fun r => r.scryfall_id == card.id) with
  | nil =>
    refine ⟨rfl, ?_, fun _ => rfl⟩
    intro r hr
    exact absurd hr (by simp)
  | cons r rs =>
    cases rs with
    | nil =>
      refine ⟨rfl, ?_, ?_⟩
      · intro r0 hr0
        injection hr0 with h1 h2
        rw [h1]
        rfl
      · intro hne
        exact absurd rfl hne
    | cons r2 rs2 =>
      have h2 : ((r :: r2 :: rs2).length == 1) = false := by
        simp only [List.length_cons, beq_eq_false_iff_ne]
        omega
      refine ⟨by rw [h2]; rfl, ?_, fun _ => rfl⟩
      intro r0 hr0
      exact absurd hr0 (by simp)

/-- C6 witness: with a single matching entry the flag is on and the
quantity is that entry's quantity. -/
theorem enrichCard_ownership_single_witness :
    envCached.cacheGet = some cachedRowSample
    ∧ (enrichCard envCached [rowOld] "u1" "t0" sampleCard).in_collection
        = (((visibleRows [rowOld] "u1").filter
            (fun r => r.scryfall_id == sampleCard.id)).length == 1)
    ∧ (enrichCard envCached [rowOld] "u1" "t0" sampleCard).collection_quantity
        = rowOld.quantity :=
  ⟨rfl,
   (enrichCard_ownership_single envCached [rowOld] "u1" "t0" sampleCard
      cachedRowSample rfl).1,
   (enrichCard_ownership_single envCached [rowOld] "u1" "t0" sampleCard
      cachedRowSample rfl).2.1 rowOld (by decide)⟩

/-- C7 counterexample: a request that is both unauthenticated and
malformed receives 400, not 401 — each route runs its Zod validation
before its auth check. -/
theorem cardsSearch_unauth_invalid_400 :
    cardsSearchStatus false false WorkOutcome.ok = 400 ∧ (400 : Nat) ≠ 401 := by
  decide

/-- C7 (amended): unauthenticated calls whose input passes validation
(and, for collection-add, whose body parses as JSON) return 401;
validation failures return 400, validation being checked before
authentication; a collection-add body that is not valid JSON returns 500;
collection-add returns 404 when the card is absent from the cache; and
unexpected downstream failures return 500. -/
theorem route_status_codes (authed cardInCache validBody : Bool)
    (w : WorkOutcome) :
    cardsSearchStatus true false w = 401
    ∧ collectionSearchStatus true false w = 401
    ∧ addRouteStatus true true false cardInCache w = 401
    ∧ cardsSearchStatus false authed w = 400
    ∧ collectionSearchStatus false authed w = 400
    ∧ addRouteStatus true false authed cardInCache w = 400
    ∧ addRouteStatus false validBody authed cardInCache w = 500
    ∧ addRouteStatus true true true false w = 404
    ∧ cardsSearchStatus true true WorkOutcome.failed = 500
    ∧ collectionSearchStatus true true WorkOutcome.failed = 500
    ∧ addRouteStatus true true true true WorkOutcome.failed = 500 := by
  cases authed <;> cases cardInCache <;> cases validBody <;> cases w <;> decide
